import Mathlib

/-!
Shallow embedding of uwa.py (repository Alastairm/uwalcs) and proofs about it.

The script scrapes a lecture-capture repository: it lists directory pages,
validates year/week/day integers, reads unit (section.xml) and lecture
(presentation.xml) descriptors, and writes unit and lecture records to a
remote JSON store.  HTTP fetches and the remote store are modelled as
explicit environments (functions from URLs or hashes to optional documents);
Python exceptions are modelled with an Except monad over the PyErr type.
-/

/-- Python exceptions that uwa.py can raise, as far as this model needs them:
ValueError (with its message), urllib.error.HTTPError for a non-success HTTP
response, and NameError (with the offending identifier) for the evaluation of
a name that is defined nowhere in the module. -/
inductive PyErr where
  | valueError (msg : String)
  | httpError
  | nameError (nm : String)
deriving DecidableEq

/-- Base URL of the echo lecture repository (uwa.py, BASE_URL). -/
def BASE_URL : String := "http://media.lcs.uwa.edu.au/echocontent/"

/-- Python truthiness of an optional int argument: None and 0 are falsy,
every other int is truthy.  This is exactly the test made by the
idiom `if year and (...)` in check_date. -/
def truthy (x : Option Int) : Bool :=
  match x with
  | none => false
  | some n => n != 0

/-- The last two characters of a string, Python s[-2:] (for strings shorter
than two characters this is the whole string, as in Python). -/
def lastTwoChars (s : String) : String :=
  String.mk ((s.toList.reverse.take 2).reverse)

/-- Model of check_date(year=None, week=None, day=None) from uwa.py.

The source guards each range check with `if year and (...)` (likewise week,
day), so an argument that is None or 0 is not checked at all.  The year
upper bound in the source is `year > datetime.now().year`, the full
four-digit current year; it is passed here as nowYear.  The error messages
are copied verbatim from the source, including the year message ending in
the last two digits of the current year and the unbalanced parentheses. -/
def check_date (nowYear : Int) (year week day : Option Int) : Except PyErr Unit :=
  if truthy year = true ∧ (year.getD 0 < 15 ∨ year.getD 0 > nowYear) then
    Except.error (PyErr.valueError (("Year argument out of range (valid:15-") ++
      lastTwoChars (toString nowYear)))
  else if truthy week = true ∧ (week.getD 0 < 1 ∨ week.getD 0 > 53) then
    Except.error (PyErr.valueError ("Week argument out of range (valid:1-53"))
  else if truthy day = true ∧ (day.getD 0 < 1 ∨ day.getD 0 > 7) then
    Except.error (PyErr.valueError ("Day argument out of range (valid:1-7)"))
  else
    Except.ok ()

/-- Worker for pySplit, with a fuel argument that starts at the length of the
text, so that the recursion is structural.  At every position it either finds
the separator as a prefix (closing the current segment and skipping the
separator) or moves one character into the accumulator, so at least one
character is consumed per step and the fuel never runs out on the texts it is
called on. -/
def pySplitAux (sep : List Char) : Nat → List Char → List Char → List (List Char)
  | 0, rest, acc => [acc.reverse ++ rest]
  | _ + 1, [], acc => [acc.reverse]
  | fuel + 1, c :: cs, acc =>
    if sep.isPrefixOf (c :: cs) then
      acc.reverse :: pySplitAux sep fuel ((c :: cs).drop sep.length) ([])
    else
      pySplitAux sep fuel cs (c :: acc)

/-- Python str.split(sep) for a non-empty separator: scan left to right, cut
at each non-overlapping occurrence of sep.  A text with N occurrences of sep
yields N+1 segments, the first being the text before the first occurrence. -/
def pySplit (sep text : List Char) : List (List Char) :=
  pySplitAux sep text.length text ([])

/-- The literal the directory lister splits a listing page on. -/
def anchorMarker : List Char := "<a href=\"".toList

/-- Model of get_hashes_from_dir from uwa.py, as a function of the fetched
page text: split on the anchor-opening marker, discard the first six
segments, reverse the remainder, and take the first 36 characters of each
remaining segment. -/
def get_hashes_from_dir (page_text : String) : List String :=
  let links := pySplit anchorMarker page_text.toList
  let links2 := links.drop 6
  let links3 := links2.reverse
  links3.map (fun link => String.mk (link.take 36))

/-- The fields of a unit's section.xml that the UnitXML accessors read.
A fetched document is modelled as already parsed into these four texts. -/
structure UnitXML where
  term_name : String
  name : String
  course_identifier : String
  portal_url : String
deriving DecidableEq

/-- Model of UnitXML.get_year: the term/name text with its first two
characters removed (Python year.text[2:]). -/
def UnitXML.get_year (xml : UnitXML) : String :=
  String.mk (xml.term_name.toList.drop 2)

/-- Model of UnitXML.get_unit_code: the course/identifier text. -/
def UnitXML.get_unit_code (xml : UnitXML) : String :=
  xml.course_identifier

/-- Model of UnitXML.get_unit_url: the portal/url text. -/
def UnitXML.get_unit_url (xml : UnitXML) : String :=
  xml.portal_url

/-- ASCII lower-case letter, the character class a-z of the unit-code regex. -/
def isPatternLower (c : Char) : Bool :=
  decide (('a').toNat ≤ c.toNat ∧ c.toNat ≤ ('z').toNat)

/-- ASCII upper-case letter, the character class A-Z of the unit-code regex. -/
def isPatternUpper (c : Char) : Bool :=
  decide (('A').toNat ≤ c.toNat ∧ c.toNat ≤ ('Z').toNat)

/-- A character matched by [a-zA-Z] in the unit-code regex. -/
def isPatternLetter (c : Char) : Bool := isPatternLower c || isPatternUpper c

/-- A character matched by [0-9] in the unit-code regex. -/
def isPatternDigit (c : Char) : Bool :=
  decide (('0').toNat ≤ c.toNat ∧ c.toNat ≤ ('9').toNat)

/-- The list-of-characters core of validUnit.match: Python re.match anchors
the pattern at the start of the string only, so the test is whether the
first eight characters exist and are four letters followed by four digits;
anything after them is ignored. -/
def validUnitL (l : List Char) : Bool :=
  match l with
  | a :: b :: c :: d :: e :: f :: g :: i :: _ =>
    isPatternLetter a && isPatternLetter b && isPatternLetter c && isPatternLetter d &&
    isPatternDigit e && isPatternDigit f && isPatternDigit g && isPatternDigit i
  | _ => false

/-- Model of the test `validUnit.match(unitCode)` in get_semester_units,
with validUnit = re.compile of 4 letters then 4 digits. -/
def validUnit_match (s : String) : Bool :=
  validUnitL s.toList

/-- The list-of-characters core of the spec's pattern filter, following the
spec's words: the whole string consists of exactly 4 letters followed by
exactly 4 digits. -/
def specExactL (l : List Char) : Bool :=
  match l with
  | [a, b, c, d, e, f, g, i] =>
    isPatternLetter a && isPatternLetter b && isPatternLetter c && isPatternLetter d &&
    isPatternDigit e && isPatternDigit f && isPatternDigit g && isPatternDigit i
  | _ => false

/-- The spec's pattern filter (see specExactL), on strings. -/
def spec_exact_unit_code (s : String) : Bool :=
  specExactL s.toList

/-- Environment of the semester crawl: the text of the sections directory
listing page, and the parsed section.xml for each hash (none models a
fetch that fails, which raises urllib HTTPError in the source). -/
structure SectionsEnv where
  sectionsPage : String
  fetchSection : String → Option UnitXML

/-- The per-hash loop of get_semester_units: fetch each hash's section.xml
(a failed fetch aborts the whole call, as the uncaught exception does in the
source), keep the (unit code, portal url) pair of the units whose get_year
equals the requested year string and whose code passes validUnit.match. -/
def sem_units_loop (env : SectionsEnv) (yearStr : String) :
    List String → Except PyErr (List (String × String))
  | [] => Except.ok []
  | hsh :: rest =>
    match env.fetchSection hsh with
    | none => Except.error PyErr.httpError
    | some xml =>
      if UnitXML.get_year xml = yearStr then
        if validUnit_match (UnitXML.get_unit_code xml) = true then
          match sem_units_loop env yearStr rest with
          | Except.ok tail =>
            Except.ok ((UnitXML.get_unit_code xml, UnitXML.get_unit_url xml) :: tail)
          | Except.error e => Except.error e
        else sem_units_loop env yearStr rest
      else sem_units_loop env yearStr rest

/-- Model of get_semester_units(year, semester) from uwa.py: validate the
year with check_date, convert year and semester to strings (the semester
string is never used afterwards -- the source computes it and then ignores
it), list the section hashes from the sections directory page, and run the
per-hash filter loop. -/
def get_semester_units (env : SectionsEnv) (nowYear year semester : Int) :
    Except PyErr (List (String × String)) :=
  match check_date nowYear (some year) none none with
  | Except.error e => Except.error e
  | Except.ok _ =>
    let yearStr := toString year
    let _semesterStr := toString semester
    let unitHashes := get_hashes_from_dir env.sectionsPage
    sem_units_loop env yearStr unitHashes

/-- The fields of a lecture's presentation.xml that the LectureXML accessors
read: presentation-properties/name, presentation-properties/start-timestamp
and presentation-properties/location. -/
structure LectureTree where
  name : String
  startTimestamp : String
  location : String
deriving DecidableEq

/-- The state a constructed LectureXML object holds: the lecture's directory
URL and the parsed presentation.xml. -/
structure LectureXML where
  url : String
  tree : LectureTree
deriving DecidableEq

/-- Model of LectureXML.__init__(year, week, day, lectureHash) from uwa.py.

The first statement of the source body is a call to
check_year_week_day(year, week, day).  No definition, import or assignment
of that name exists anywhere in the module (the validator defined in the
module is called check_date), so in Python the call raises NameError before
anything else in the body runs.  The rest of the body -- building the
directory path str(year)+str(week)+'/'+str(day)+'/'+lectureHash+'/' and
fetching presentation.xml from it -- is kept below the error so the model
matches the source line for line, but it is unreachable. -/
def lectureXML_init (fetch : String → Option LectureTree)
    (year week day : Int) (lectureHash : String) : Except PyErr LectureXML := do
  let _ ← (Except.error (PyErr.nameError ("check_year_week_day")) : Except PyErr Unit)
  let dirPath := toString year ++ toString week ++ ("/") ++ toString day ++ ("/") ++
    lectureHash ++ ("/")
  let url := BASE_URL ++ dirPath
  match fetch (url ++ ("presentation.xml")) with
  | none => Except.error PyErr.httpError
  | some tree => Except.ok ⟨url, tree⟩

/-- Model of LectureXML.get_lecture_unit: the first 8 characters of the
presentation-properties/name text. -/
def get_lecture_unit (xml : LectureXML) : String :=
  String.mk (xml.tree.name.toList.take 8)

/-- Model of LectureXML.get_lecture_video_url: directory URL plus the fixed
file name. -/
def get_lecture_video_url (xml : LectureXML) : String :=
  xml.url ++ ("audio-vga.m4v")

/-- Model of LectureXML.get_lecture_location. -/
def get_lecture_location (xml : LectureXML) : String :=
  xml.tree.location

/-- A Python datetime value, to the precision uwa.py uses. -/
structure PyDateTime where
  year : Nat
  month : Nat
  day : Nat
  hour : Nat
  minute : Nat
  second : Nat
deriving DecidableEq

/-- Gregorian leap year. -/
def isLeap (y : Nat) : Bool := decide ((y % 4 = 0 ∧ y % 100 ≠ 0) ∨ y % 400 = 0)

/-- Number of days in a month of a given year. -/
def daysInMonth (y m : Nat) : Nat :=
  match m with
  | 1 => 31
  | 2 => if isLeap y then 29 else 28
  | 3 => 31
  | 4 => 30
  | 5 => 31
  | 6 => 30
  | 7 => 31
  | 8 => 31
  | 9 => 30
  | 10 => 31
  | 11 => 30
  | 12 => 31
  | _ => 0

/-- The value of an ASCII digit, none for any other character. -/
def digitVal (c : Char) : Option Nat :=
  if isPatternDigit c then some (c.toNat - ('0').toNat) else none

/-- Reads a non-empty all-digit character list as a decimal number. -/
def parseNatAux : List Char → Nat → Option Nat
  | [], acc => some acc
  | c :: cs, acc =>
    match digitVal c with
    | some d => parseNatAux cs (acc * 10 + d)
    | none => none

/-- Reads a non-empty all-digit character list as a decimal number, none on
an empty list or a non-digit. -/
def parseNatL : List Char → Option Nat
  | [] => none
  | l => parseNatAux l 0

/-- ASCII lower-casing of one character, as Python's case-insensitive
matching of month abbreviations needs it. -/
def charLower (c : Char) : Char :=
  if isPatternUpper c then Char.ofNat (c.toNat + 32) else c

/-- The month number of a %b month abbreviation, matched case-insensitively
as Python strptime does. -/
def monthOfAbbrev (l : List Char) : Option Nat :=
  let low := String.mk (l.map charLower)
  if low = ("jan") then some 1
  else if low = ("feb") then some 2
  else if low = ("mar") then some 3
  else if low = ("apr") then some 4
  else if low = ("may") then some 5
  else if low = ("jun") then some 6
  else if low = ("jul") then some 7
  else if low = ("aug") then some 8
  else if low = ("sep") then some 9
  else if low = ("oct") then some 10
  else if low = ("nov") then some 11
  else if low = ("dec") then some 12
  else none

/-- Model of datetime.strptime(text, "%d-%b-%Y %H:%M:%S"): split the text
into its day-month-year and hour-minute-second fields, read the numbers and
the month abbreviation, and reject values a Python datetime cannot hold
(ValueError in the source, none here). -/
def strptime_dbY_HMS (s : String) : Option PyDateTime :=
  match pySplit ([' ']) s.toList with
  | [dpart, tpart] =>
    match pySplit (['-']) dpart, pySplit ([':']) tpart with
    | [ds, ms, ys], [hs, mins, ss] =>
      match parseNatL ds, monthOfAbbrev ms, parseNatL ys,
            parseNatL hs, parseNatL mins, parseNatL ss with
      | some d, some mo, some y, some h, some mi, some sec =>
        if 1 ≤ y ∧ y ≤ 9999 ∧ 1 ≤ d ∧ d ≤ daysInMonth y mo ∧
           h < 24 ∧ mi < 60 ∧ sec < 60 then
          some ⟨y, mo, d, h, mi, sec⟩
        else none
      | _, _, _, _, _, _ => none
    | _, _ => none
  | _ => none

/-- Model of adding timedelta(minutes=2) to a datetime: carry through the
minute, hour, day, month and year fields as needed. -/
def addTwoMinutes (t : PyDateTime) : PyDateTime :=
  let m := t.minute + 2
  if m < 60 then { t with minute := m }
  else
    let m2 := m - 60
    let h := t.hour + 1
    if h < 24 then { t with minute := m2, hour := h }
    else if t.day + 1 ≤ daysInMonth t.year t.month then
      { t with minute := m2, hour := 0, day := t.day + 1 }
    else if t.month < 12 then
      { t with minute := m2, hour := 0, day := 1, month := t.month + 1 }
    else
      { year := t.year + 1, month := 1, day := 1, hour := 0, minute := m2,
        second := t.second }

/-- The weekday of a Gregorian date by Sakamoto's method, 0 = Sunday. -/
def dayOfWeekNum (y m d : Nat) : Nat :=
  let offs := [0, 3, 2, 5, 0, 3, 5, 1, 4, 6, 2, 4]
  let y2 := if m < 3 then y - 1 else y
  (y2 + y2 / 4 - y2 / 100 + y2 / 400 + offs.getD (m - 1) 0 + d) % 7

/-- The English weekday name, as strftime %A produces it. -/
def dayOfWeekName (y m d : Nat) : String :=
  (["Sunday", "Monday", "Tuesday", "Wednesday", "Thursday", "Friday",
    "Saturday"]).getD (dayOfWeekNum y m d) ("")

/-- The full English month name, as strftime %B produces it. -/
def monthName (m : Nat) : String :=
  (["January", "February", "March", "April", "May", "June", "July", "August",
    "September", "October", "November", "December"]).getD (m - 1) ("")

/-- A number printed with at least two digits, zero padded. -/
def pad2 (n : Nat) : String :=
  if n < 10 then ("0") ++ toString n else toString n

/-- strftime("%d %B %Y ") -- note the trailing space, present in the
source's format string. -/
def strftime_dBY (t : PyDateTime) : String :=
  pad2 t.day ++ (" ") ++ monthName t.month ++ (" ") ++ toString t.year ++ (" ")

/-- strftime("%I%p %A"): zero-padded 12-hour clock hour, AM or PM, a space
and the weekday name. -/
def strftime_IpA (t : PyDateTime) : String :=
  let h0 := t.hour % 12
  let h12 := if h0 = 0 then 12 else h0
  pad2 h12 ++ (if t.hour < 12 then ("AM") else ("PM")) ++ (" ") ++
    dayOfWeekName t.year t.month t.day

/-- Model of LectureXML.get_lecture_time_date: parse the nested
start-timestamp with the fixed format, add two minutes (recordings start two
minutes before the lecture), format the date as "%d %B %Y " and the time as
"%I%p %A", and strip one leading zero from the time if there is one. -/
def get_lecture_time_date (xml : LectureXML) : Except PyErr (String × String) :=
  match strptime_dbY_HMS xml.tree.startTimestamp with
  | none => Except.error (PyErr.valueError ("time data does not match format"))
  | some t0 =>
    let t := addTwoMinutes t0
    let date := strftime_dBY t
    let time := strftime_IpA t
    let time2 := if time.toList.getD 0 (' ') = ('0')
      then String.mk (time.toList.drop 1) else time
    Except.ok (time2, date)

/-- Environment of the daily lecture crawl: the keys of the /units mapping
read from the store at the start of get_days_lectures, the text of the
day's directory listing page, and the fetch function for presentation.xml
documents. -/
structure DayEnv where
  unitsKeys : List String
  dayPage : String
  fetchLecture : String → Option LectureTree

/-- A record as get_days_lectures would post it under /units/unitCode. -/
structure FBWrite where
  unitCode : String
  fieldURL : String
  fieldTime : String
  fieldDate : String
  fieldLocation : String
deriving DecidableEq

/-- The per-candidate loop of get_days_lectures.  A urllib HTTPError from
constructing the LectureXML is caught and the candidate skipped; any other
error propagates and aborts the loop.  When the lecture's unit code is one
of the known keys, the source builds the record with the statements
data[URL] = ..., data[time], data[date] = ..., data[location] = ..., whose
subscripts URL, time, date and location are bare names that are defined
nowhere in the module, so reaching that branch raises NameError (modelled
with the first such name, URL); an unknown unit code is silently skipped. -/
def days_loop (fetch : String → Option LectureTree) (year week day : Int)
    (lec_db : List String) : List String → Except PyErr (List FBWrite)
  | [] => Except.ok []
  | lec :: rest =>
    match lectureXML_init fetch year week day lec with
    | Except.error PyErr.httpError => days_loop fetch year week day lec_db rest
    | Except.error e => Except.error e
    | Except.ok xml =>
      let unitCode := get_lecture_unit xml
      if unitCode ∈ lec_db then
        Except.error (PyErr.nameError ("URL"))
      else
        days_loop fetch year week day lec_db rest

/-- Model of get_days_lectures(year, week, day) from uwa.py: read the known
unit keys from the store, then call check_year_week_day(year, week, day) --
again a name that is defined nowhere in the module, so NameError is raised
before the day's listing is even fetched -- then (unreachably) list the
day's lecture hashes and run the candidate loop. -/
def get_days_lectures (env : DayEnv) (year week day : Int) :
    Except PyErr (List FBWrite) := do
  let lec_db := env.unitsKeys
  let _ ← (Except.error (PyErr.nameError ("check_year_week_day")) : Except PyErr Unit)
  let lec_links := get_hashes_from_dir env.dayPage
  days_loop env.fetchLecture year week day lec_db lec_links

/-- A listing page whose text contains exactly 7 occurrences of the anchor
marker (used to test the lister's token count). -/
def page7 : String :=
  "top<a href=\"a1<a href=\"a2<a href=\"a3<a href=\"a4<a href=\"a5<a href=\"a6<a href=\"a7"

/-- A listing page whose text contains exactly 8 occurrences of the anchor
marker; the segments after the first six are hA, hB, hC. -/
def page8 : String :=
  "top<a href=\"y1<a href=\"y2<a href=\"y3<a href=\"y4<a href=\"y5<a href=\"hA<a href=\"hB<a href=\"hC"

/-- The result-shape of the semester crawl stated from the spec's words: a
hash contributes the pair (unit code, portal url) exactly when its fetched
descriptor's parsed year equals the requested year string and its unit code
passes the pattern filter. -/
def spec_unit_pair (env : SectionsEnv) (yearStr : String) (hsh : String) :
    Option (String × String) :=
  match env.fetchSection hsh with
  | some xml =>
    if UnitXML.get_year xml = yearStr ∧ validUnit_match (UnitXML.get_unit_code xml) = true
    then some (UnitXML.get_unit_code xml, UnitXML.get_unit_url xml)
    else none
  | none => none

/-- A sections listing page with 8 anchor markers whose last three segments
are the hashes hashA, hashB, hashC. -/
def sectionsPage5 : String :=
  "top<a href=\"x1<a href=\"x2<a href=\"x3<a href=\"x4<a href=\"x5<a href=\"hashA<a href=\"hashB<a href=\"hashC"

/-- A mock unit-descriptor store with three units of year 2015: two with
valid codes (CITS3002, GENG5505) and one with an invalid code (CIT3002X). -/
def fetchSection5 : String → Option UnitXML := fun hsh =>
  if hsh = ("hashC") then
    some ⟨("2015"), ("CITS3002 Computer Networks [2015 Standard semester 2]"),
      ("CITS3002"), ("urlC")⟩
  else if hsh = ("hashB") then
    some ⟨("2015"), ("CIT3002X oddly coded offering"), ("CIT3002X"), ("urlB")⟩
  else if hsh = ("hashA") then
    some ⟨("2015"), ("GENG5505 Project Management [2015 Standard semester 2]"),
      ("GENG5505"), ("urlA")⟩
  else none

/-- The semester-crawl environment built from sectionsPage5 and
fetchSection5. -/
def env5 : SectionsEnv := ⟨sectionsPage5, fetchSection5⟩

/-- Claim C1: the claim says LectureXML.__init__ first validates the three
date fields through check_date, raising its range error for out-of-range
values before any fetch, and for in-range values fetches
BASE_URL/year week/day/hash/presentation.xml.  The code instead opens with a
call to check_year_week_day, a name that is defined nowhere in the module,
so for every input -- in range or not -- construction raises NameError
before any validation or fetch happens. -/
theorem lectureXML_init_always_name_error (fetch : String → Option LectureTree)
    (year week day : Int) (lectureHash : String) :
    lectureXML_init fetch year week day lectureHash =
      Except.error (PyErr.nameError ("check_year_week_day")) := rfl

/-- Claim C2: the claim says a lecture record is written exactly when the
lecture's unit code is a known key of the units mapping.  In the code no
record can ever be written: get_days_lectures raises NameError (the
undefined check_year_week_day) before fetching the day's listing, for every
environment and every date. -/
theorem get_days_lectures_always_name_error (env : DayEnv) (year week day : Int) :
    get_days_lectures env year week day =
      Except.error (PyErr.nameError ("check_year_week_day")) := rfl

/-- Claim C4: evaluation of check_date at the claim's failing inputs, with
the current year 2026 (two-digit 26).  Year 27 is outside [15, 26] yet
passes, because the source compares against the four-digit
datetime.now().year; years up to 2026 all pass, 2027 raises; year 0 is
skipped as falsy; the code's own error message names 26 as the bound; the
in-range values 15 and 26 pass as the claim says. -/
theorem check_date_year_gap :
    check_date 2026 (some 27) none none = Except.ok () ∧
    check_date 2026 (some 2026) none none = Except.ok () ∧
    check_date 2026 (some 2027) none none =
      Except.error (PyErr.valueError ("Year argument out of range (valid:15-26")) ∧
    check_date 2026 (some 0) none none = Except.ok () ∧
    check_date 2026 (some 15) none none = Except.ok () ∧
    check_date 2026 (some 26) none none = Except.ok () ∧
    check_date 2026 (some 14) none none =
      Except.error (PyErr.valueError ("Year argument out of range (valid:15-26")) := by
  exact ⟨rfl, rfl, rfl, rfl, rfl, rfl, rfl⟩

/-- Claim C6: get_lecture_time_date parses the start-timestamp with the
fixed format, adds two minutes and formats the pair; on
"29-Jul-2015 09:00:00" it returns exactly ("9AM Wednesday", "29 July 2015 ")
(trailing space included), and on "29-Jul-2015 08:59:00" the added two
minutes cross the hour boundary and give the same "9AM Wednesday". -/
theorem get_lecture_time_date_examples :
    get_lecture_time_date ⟨("u/"), ⟨("CITS3002 L1"), ("29-Jul-2015 09:00:00"), ("LT")⟩⟩ =
      Except.ok (("9AM Wednesday"), ("29 July 2015 ")) ∧
    get_lecture_time_date ⟨("u/"), ⟨("CITS3002 L1"), ("29-Jul-2015 08:59:00"), ("LT")⟩⟩ =
      Except.ok (("9AM Wednesday"), ("29 July 2015 ")) := by
  exact ⟨rfl, rfl⟩

/-- Claim C7: evaluation of check_date at the claim's inputs.  Week 0 and
day 0 are outside the valid ranges yet pass, because the source's truthiness
guard treats 0 like an absent argument; the boundary values 1, 53, 1 and 7
pass, out-of-range 54 and 8 raise, and absent fields are not checked, as the
claim says. -/
theorem check_date_zero_gap :
    check_date 2026 none (some 0) none = Except.ok () ∧
    check_date 2026 none none (some 0) = Except.ok () ∧
    check_date 2026 none (some 1) none = Except.ok () ∧
    check_date 2026 none (some 53) none = Except.ok () ∧
    check_date 2026 none none (some 1) = Except.ok () ∧
    check_date 2026 none none (some 7) = Except.ok () ∧
    check_date 2026 none (some 54) none =
      Except.error (PyErr.valueError ("Week argument out of range (valid:1-53")) ∧
    check_date 2026 none none (some 8) =
      Except.error (PyErr.valueError ("Day argument out of range (valid:1-7)")) ∧
    check_date 2026 none none none = Except.ok () := by
  exact ⟨rfl, rfl, rfl, rfl, rfl, rfl, rfl, rfl, rfl⟩

/-- Claim C8: the claim says a fetch error while reading one candidate is
caught, the candidate skipped and the loop continued, and that a
per-candidate error never aborts the loop.  In the code every candidate's
LectureXML construction raises NameError (the undefined check_year_week_day)
before its fetch, the except clause catches only HTTPError, and so the very
first candidate aborts the whole loop for every environment. -/
theorem days_loop_first_candidate_aborts (fetch : String → Option LectureTree)
    (year week day : Int) (lec_db : List String) (lec : String) (rest : List String) :
    days_loop fetch year week day lec_db (lec :: rest) =
      Except.error (PyErr.nameError ("check_year_week_day")) := rfl

/-- Claim C9 (amended): UnitXML.get_year returns the term/name text with its
first two characters removed (Python text[2:]); on a four-character text --
the 20YY term names the scraper actually meets -- this coincides with the
last two characters. -/
theorem get_year_amended :
    (∀ (a b : Char) (l : List Char) (nm code url : String),
      UnitXML.get_year ⟨String.mk (a :: b :: l), nm, code, url⟩ = String.mk l) ∧
    (∀ (a b c d : Char) (nm code url : String),
      UnitXML.get_year ⟨String.mk [a, b, c, d], nm, code, url⟩ = String.mk [c, d]) :=
  ⟨fun _ _ _ _ _ _ => rfl, fun _ _ _ _ _ _ _ => rfl⟩

/-- Claim C9 counterexample: on the five-character term text "20156",
get_year returns "156", not the last two characters "56", so get_year does
not return the last two characters of every term/name text. -/
theorem get_year_not_last_two_counterexample :
    UnitXML.get_year ⟨("20156"), ("nm"), ("cd"), ("url")⟩ = ("156") ∧
    lastTwoChars ("20156") = ("56") ∧
    UnitXML.get_year ⟨("20156"), ("nm"), ("cd"), ("url")⟩ ≠ lastTwoChars ("20156") := by
  decide

/-- Claim C10: get_semester_units converts its semester argument to a string
and never uses it, so for any fixed environment, current year and requested
year, any two semester values give the same result. -/
theorem get_semester_units_ignores_semester (env : SectionsEnv)
    (nowYear year s1 s2 : Int) :
    get_semester_units env nowYear year s1 = get_semester_units env nowYear year s2 := rfl

/-- Splitting a page with N occurrences of the marker yields N+1 segments,
so after discarding six of them the lister keeps N-5, not N-6: on a page
with exactly 7 marker occurrences it returns 2 tokens, where the claim
predicts 7 - 6 = 1. -/
theorem get_hashes_seven_markers_counterexample :
    (pySplit anchorMarker page7.toList).length = 7 + 1 ∧ 6 < 7 ∧
    (get_hashes_from_dir page7).length ≠ 7 - 6 := by
  refine ⟨by decide, by decide, by decide⟩

/-- Claim C3 (amended): a page whose text contains N > 6 occurrences of the
anchor-opening marker splits into N+1 segments; get_hashes_from_dir discards
the first six and returns exactly N-5 candidate tokens, in reverse order of
their appearance on the page, each token being the first 36 characters of
its post-split segment (token i comes from segment N - i). -/
theorem get_hashes_count_amended (page : String) (N : Nat)
    (hN : (pySplit anchorMarker page.toList).length = N + 1) (h6 : 6 < N) :
    (get_hashes_from_dir page).length = N - 5 ∧
    ∀ i, i < N - 5 → (get_hashes_from_dir page).getD i ("") =
      String.mk (((pySplit anchorMarker page.toList).getD (N - i) ([])).take 36) := by
  have hdef : get_hashes_from_dir page =
      ((pySplit anchorMarker page.toList).drop 6).reverse.map
        (fun link => String.mk (link.take 36)) := rfl
  constructor
  · rw [hdef, List.length_map, List.length_reverse, List.length_drop, hN]
    omega
  · intro i hi
    rw [hdef]
    have hlen : ((pySplit anchorMarker page.toList).drop 6).length = N - 5 := by
      rw [List.length_drop, hN]
      omega
    have hi2 : i < ((pySplit anchorMarker page.toList).drop 6).length := by
      rw [hlen]
      exact hi
    rw [List.getD_eq_getElem?_getD, List.getElem?_map, List.getElem?_reverse hi2,
      List.getElem?_drop]
    have hidx : 6 + (((pySplit anchorMarker page.toList).drop 6).length - 1 - i) =
        N - i := by
      rw [hlen]
      omega
    rw [hidx]
    have hNi : N - i < (pySplit anchorMarker page.toList).length := by
      rw [hN]
      omega
    rw [List.getElem?_eq_getElem hNi, List.getD_eq_getElem?_getD,
      List.getElem?_eq_getElem hNi]
    rfl

/-- Witness for the amended claim C3: page8 has 8 marker occurrences, the
lister returns 8 - 5 = 3 tokens, and they are the last three segments in
reverse order (hC first, hA last). -/
theorem get_hashes_count_amended_witness :
    (get_hashes_from_dir page8).length = 8 - 5 ∧
    (get_hashes_from_dir page8).getD 0 ("") = ("hC") ∧
    (get_hashes_from_dir page8).getD 2 ("") = ("hA") := by
  have h := get_hashes_count_amended page8 8 (by decide) (by decide)
  refine ⟨h.1, ?_, ?_⟩
  · rw [h.2 0 (by decide)]
    decide
  · rw [h.2 2 (by decide)]
    decide

/-- validUnit.match tests only a prefix of the unit code: the nine-character
string CITS3002X is accepted by the code's filter although it does not
consist of 4 letters followed by 4 digits, so the filter does not reject
every string other than the exact 4-letter 4-digit ones.  The claim's own
examples behave as it says: CITS3002 is accepted, CIT3002X and 1234ABCD
are rejected. -/
theorem validUnit_match_prefix_counterexample :
    validUnit_match ("CITS3002X") = true ∧ spec_exact_unit_code ("CITS3002X") = false ∧
    validUnit_match ("CITS3002") = true ∧ validUnit_match ("CIT3002X") = false ∧
    validUnit_match ("1234ABCD") = false := by
  decide

/-- The prefix filter of the code agrees with the spec's exact filter
applied to the first eight characters. -/
theorem validUnitL_take8 (l : List Char) : validUnitL l = specExactL (l.take 8) := by
  rcases l with _ | ⟨a, _ | ⟨b, _ | ⟨c, _ | ⟨d, _ | ⟨e, _ | ⟨f, _ | ⟨g, _ | ⟨i, t⟩⟩⟩⟩⟩⟩⟩⟩ <;>
    rfl

/-- When every listed hash's section fetch succeeds, the per-hash loop of
get_semester_units returns exactly the pairs selected by spec_unit_pair, in
listing order. -/
theorem sem_units_loop_eq (env : SectionsEnv) (yearStr : String) :
    ∀ l : List String, (∀ hsh ∈ l, (env.fetchSection hsh).isSome = true) →
      sem_units_loop env yearStr l = Except.ok (l.filterMap (spec_unit_pair env yearStr))
  | [], _ => rfl
  | hsh :: rest, hf => by
    have hhead : (env.fetchSection hsh).isSome = true := hf hsh (by simp)
    obtain ⟨xml, hxml⟩ := Option.isSome_iff_exists.mp hhead
    have ih := sem_units_loop_eq env yearStr rest (fun x hx => hf x (by simp [hx]))
    by_cases hy : UnitXML.get_year xml = yearStr
    · by_cases hv : validUnit_match (UnitXML.get_unit_code xml) = true
      · simp [sem_units_loop, spec_unit_pair, hxml, hy, hv, ih, List.filterMap_cons]
      · simp [sem_units_loop, spec_unit_pair, hxml, hy, hv, ih, List.filterMap_cons]
    · simp [sem_units_loop, spec_unit_pair, hxml, hy, ih, List.filterMap_cons]

/-- Claim C5 (amended): the unit-code filter accepts exactly the strings
whose first eight characters are 4 letters (case-insensitive) followed by 4
digits -- re.match anchors only at the start, so longer strings with such a
prefix are accepted too -- and, when the year is in range and every section
fetch succeeds, get_semester_units returns exactly the (unit code, portal
URL) pairs of the listed hashes whose parsed year equals the requested year
and whose unit code passes that prefix filter. -/
theorem get_semester_units_prefix_filter (env : SectionsEnv)
    (nowYear year semester : Int) (h1 : 15 ≤ year) (h2 : year ≤ nowYear)
    (hf : ∀ hsh ∈ get_hashes_from_dir env.sectionsPage,
      (env.fetchSection hsh).isSome = true) :
    (∀ s : String, validUnit_match s = spec_exact_unit_code (String.mk (s.toList.take 8))) ∧
    get_semester_units env nowYear year semester =
      Except.ok ((get_hashes_from_dir env.sectionsPage).filterMap
        (spec_unit_pair env (toString year))) := by
  constructor
  · intro s
    show validUnitL s.toList = specExactL (String.mk (s.toList.take 8)).toList
    exact validUnitL_take8 s.toList
  · have hc1 : ¬(truthy (some year) = true ∧
        ((some year : Option Int).getD 0 < 15 ∨ (some year : Option Int).getD 0 > nowYear)) := by
      simp only [truthy, Option.getD_some, bne_iff_ne, ne_eq]
      rintro ⟨-, h | h⟩ <;> omega
    have hc2 : ¬(truthy (none : Option Int) = true ∧
        ((none : Option Int).getD 0 < 1 ∨ (none : Option Int).getD 0 > 53)) := by
      simp [truthy]
    have hc3 : ¬(truthy (none : Option Int) = true ∧
        ((none : Option Int).getD 0 < 1 ∨ (none : Option Int).getD 0 > 7)) := by
      simp [truthy]
    have hok : check_date nowYear (some year) none none = Except.ok () := by
      unfold check_date
      rw [if_neg hc1, if_neg hc2, if_neg hc3]
    unfold get_semester_units
    rw [hok]
    exact sem_units_loop_eq env (toString year) (get_hashes_from_dir env.sectionsPage) hf

/-- Witness for the amended claim C5: on the mock store env5 with three
units of year 2015, two of which have valid codes, the crawl for year 15
returns exactly the two pairs, in listing order. -/
theorem get_semester_units_prefix_filter_witness :
    (15 : Int) ≤ 15 ∧ (15 : Int) ≤ 2026 ∧
    get_semester_units env5 2026 15 1 =
      Except.ok [(("CITS3002"), ("urlC")), (("GENG5505"), ("urlA"))] := by
  refine ⟨by decide, by decide, ?_⟩
  have h := (get_semester_units_prefix_filter env5 2026 15 1 (by decide) (by decide)
    (by decide)).2
  rw [h]
  rfl
